import Mathlib

/-
  Verification of the ClamAV-API scan orchestration layer.

  Shallow embedding of the Go sources:
    - clamav.go (performScan, ScanResult, ScanTimeoutError, ScanEngineError)
    - metrics.go (recordScanMetrics)
    - handlers.go (handleScan, handleStreamScan, respondScanError)
    - grpc_server.go (HealthCheck, ScanFile, ScanStream, ScanMultiple, scanData)

  External effects (daemon completion channel, timer, context cancellation,
  multipart parsing) are modelled as explicit event inputs; machine integers
  (int64 sizes and durations) are modelled as Int, byte payloads as List Nat.
-/

namespace ClamAV

/-- Result record delivered on the clamd completion channel
(go-clamd ScanResult: Status and Description fields are the ones read). -/
structure ClamdResult where
  status : String
  description : String
deriving DecidableEq, Repr

/-- Which of the three raced events of the select in performScan
(completion channel, timer, context) fires first. An elapsed duration is
attached to the completion event: it is the wall clock time from the start
of the daemon round trip to completion, which is what time.Since measures. -/
inductive ScanEvent where
  | completed (result : ClamdResult) (elapsed : Nat)
  | timerFired
  | ctxDone (canceled : Bool)
deriving DecidableEq, Repr

/-- Go error values that flow through the scan path: the two concrete error
types of clamav.go, the wrapped clamd-unavailable error of performScan,
the two context errors, and any other formatted error. -/
inductive GoErr where
  | scanTimeout (timeout : Int)
  | scanEngine (description : String) (scanTime : Nat)
  | clamdUnavailable (cause : String)
  | ctxCanceled
  | ctxDeadlineExceeded
  | errorf (msg : String)
deriving DecidableEq, Repr

/-- Error() rendering of the error values above. Durations are whole
seconds in this system (config.ScanTimeout is built from a seconds count),
so the %.0f rendering of Seconds() is the integer number of seconds. -/
def errString : GoErr → String
  | .scanTimeout t => "scan operation timed out after " ++ toString (t / 1000000000) ++ " seconds"
  | .scanEngine d _ => d
  | .clamdUnavailable cause => "clamd unavailable: " ++ cause
  | .ctxCanceled => "context canceled"
  | .ctxDeadlineExceeded => "context deadline exceeded"
  | .errorf m => m

/-- ScanResult of clamav.go. -/
structure ScanResult where
  status : String
  description : String
  scanTime : Nat
deriving DecidableEq, Repr

instance instDecEqExcept {ε α : Type} [DecidableEq ε] [DecidableEq α] :
    DecidableEq (Except ε α) := fun x y =>
  match x, y with
  | .ok a, .ok b =>
    if h : a = b then isTrue (by rw [h])
    else isFalse (by intro hc; injection hc; exact h (by assumption))
  | .error a, .error b =>
    if h : a = b then isTrue (by rw [h])
    else isFalse (by intro hc; injection hc; exact h (by assumption))
  | .ok _, .error _ => isFalse (by intro hc; exact Except.noConfusion hc)
  | .error _, .ok _ => isFalse (by intro hc; exact Except.noConfusion hc)

/-- Outcome of performScan: the returned (result, error) pair, plus whether
a detached drain goroutine for the completion channel was spawned. -/
structure PerformScanOutcome where
  result : Except GoErr ScanResult
  drainSpawned : Bool
deriving DecidableEq, Repr

/-- performScan of clamav.go. streamErr is the error returned by
clam.ScanStream when starting the call; ev tells which raced event fires
first; timeout is the configured timeout duration (nanoseconds). -/
def performScan (streamErr : Option String) (ev : ScanEvent) (timeout : Int) :
    PerformScanOutcome :=
  match streamErr with
  | some cause => ⟨.error (.clamdUnavailable cause), false⟩
  | none =>
    match ev with
    | .completed r elapsed =>
      if r.status = "ERROR" then
        ⟨.error (.scanEngine r.description elapsed), false⟩
      else
        ⟨.ok ⟨r.status, r.description, elapsed⟩, false⟩
    | .timerFired => ⟨.error (.scanTimeout timeout), true⟩
    | .ctxDone canceled =>
      ⟨.error (if canceled then .ctxCanceled else .ctxDeadlineExceeded), true⟩

/-- Status label computed by recordScanMetrics of metrics.go: errors.As on
the two concrete scan error types, then the FOUND check on the result. -/
def recordScanMetricsStatus (result : Option ScanResult) (err : Option GoErr) : String :=
  match err with
  | some e =>
    match e with
    | .scanTimeout _ => "timeout"
    | .scanEngine _ _ => "engine_error"
    | _ => "error"
  | none =>
    match result with
    | some r => if r.status = "FOUND" then "found" else "ok"
    | none => "ok"

/-- One JSON response of the REST transport: HTTP status code, the optional
status field, the message field, and the optional time field. -/
structure HttpOut where
  code : Nat
  status : Option String
  message : String
  time : Option Nat
deriving DecidableEq, Repr

/-- respondScanError of handlers.go: a type switch on the two concrete scan
error types; every other error (context errors included) takes the default
502 branch. -/
def respondScanError (e : GoErr) : HttpOut :=
  match e with
  | .scanTimeout t => ⟨504, some "Scan timeout", errString (.scanTimeout t), none⟩
  | .scanEngine d _ => ⟨502, some "Clamd service down", d, none⟩
  | _ => ⟨502, some "Clamd service down", errString e, none⟩

/-- Operations on the scansInProgress gauge. -/
inductive CounterOp where
  | inc
  | dec
deriving DecidableEq, Repr

/-- Observable outcome of one REST handler invocation: the JSON response,
the gauge operations performed, whether performScan was invoked, and the
status label recorded by recordScanMetrics (none when it was not called). -/
structure RestOutcome where
  http : HttpOut
  counterOps : List CounterOp
  daemonCalled : Bool
  metricStatus : Option String
deriving DecidableEq, Repr

/-- Inputs of handleScan that are decided outside the function: whether
FormFile failed, the multipart header size and filename, and the events
resolving the performScan call. -/
structure RestScanInput where
  formFileErr : Bool
  headerSize : Int
  headerFilename : String
  streamErr : Option String
  ev : ScanEvent
deriving DecidableEq, Repr

def tooLargeRestMsg (maxLen : Int) : String :=
  "File too large. Maximum size is " ++ toString maxLen ++ " bytes"

/-- handleScan of handlers.go. -/
def handleScan (maxLen timeout : Int) (inp : RestScanInput) : RestOutcome :=
  if inp.formFileErr then
    ⟨⟨400, none, "Provide a single file", none⟩, [], false, none⟩
  else if maxLen < inp.headerSize then
    ⟨⟨413, none, tooLargeRestMsg maxLen, none⟩, [], false, none⟩
  else
    let out := performScan inp.streamErr inp.ev timeout
    match out.result with
    | .error e =>
      ⟨respondScanError e, [.inc, .dec], true,
        some (recordScanMetricsStatus none (some e))⟩
    | .ok r =>
      ⟨⟨200, some r.status, r.description, some r.scanTime⟩, [.inc, .dec], true,
        some (recordScanMetricsStatus (some r) none)⟩

/-- Inputs of handleStreamScan decided outside the function: the declared
Content-Length and the events resolving the performScan call. -/
structure StreamScanInput where
  contentLength : Int
  streamErr : Option String
  ev : ScanEvent
deriving DecidableEq, Repr

/-- handleStreamScan of handlers.go. -/
def handleStreamScan (maxLen timeout : Int) (inp : StreamScanInput) : RestOutcome :=
  if inp.contentLength ≤ 0 then
    ⟨⟨400, none, "Content-Length header is required and must be greater than 0", none⟩,
      [], false, none⟩
  else if maxLen < inp.contentLength then
    ⟨⟨400, none, tooLargeRestMsg maxLen, none⟩, [], false, none⟩
  else
    let out := performScan inp.streamErr inp.ev timeout
    match out.result with
    | .error e =>
      ⟨respondScanError e, [.inc, .dec], true,
        some (recordScanMetricsStatus none (some e))⟩
    | .ok r =>
      ⟨⟨200, some r.status, r.description, some r.scanTime⟩, [.inc, .dec], true,
        some (recordScanMetricsStatus (some r) none)⟩

/-- gRPC status codes used by grpc_server.go. -/
inductive GrpcCode where
  | invalidArgument
  | internal
  | deadlineExceeded
  | canceled
deriving DecidableEq, Repr

/-- A gRPC status error: code plus message. -/
structure GrpcStatusErr where
  code : GrpcCode
  message : String
deriving DecidableEq, Repr

/-- pb.ScanResponse (the fields the server sets). -/
structure ScanResponse where
  status : String
  message : String
  scanTime : Nat
  filename : String
deriving DecidableEq, Repr

/-- pb.HealthCheckResponse. -/
structure HealthCheckResponse where
  status : String
  message : String
deriving DecidableEq, Repr

/-- HealthCheck of grpc_server.go: pingErr is the result of pingClamd. -/
def GRPCServer.HealthCheck (pingErr : Option String) :
    Except GrpcStatusErr HealthCheckResponse :=
  match pingErr with
  | some e => .ok ⟨"unhealthy", "ClamAV service unavailable: " ++ e⟩
  | none => .ok ⟨"healthy", "ok"⟩

def tooLargeGrpcMsg (maxLen : Int) : String :=
  "file too large, maximum size is " ++ toString maxLen ++ " bytes"

def timeoutGrpcMsg (timeout : Int) : String :=
  "scan operation timed out after " ++ toString (timeout / 1000000000) ++ " seconds"

/-- pb.ScanFileRequest (the fields the server reads). -/
structure ScanFileRequest where
  data : List Nat
  filename : String
deriving DecidableEq, Repr

/-- ScanFile of grpc_server.go (unary scan). streamErr and ev resolve the
daemon call as in performScan. -/
def GRPCServer.ScanFile (maxLen timeout : Int) (req : ScanFileRequest)
    (streamErr : Option String) (ev : ScanEvent) :
    Except GrpcStatusErr ScanResponse :=
  if req.data.length = 0 then
    .error ⟨.invalidArgument, "file data is required"⟩
  else if maxLen < (req.data.length : Int) then
    .error ⟨.invalidArgument, tooLargeGrpcMsg maxLen⟩
  else
    match streamErr with
    | some cause => .error ⟨.internal, "scan failed: " ++ cause⟩
    | none =>
      match ev with
      | .completed r elapsed =>
        if r.status = "ERROR" then
          .error ⟨.internal, "scan error: " ++ r.description⟩
        else
          .ok ⟨r.status, r.description, elapsed, req.filename⟩
      | .timerFired => .error ⟨.deadlineExceeded, timeoutGrpcMsg timeout⟩
      | .ctxDone _ => .error ⟨.canceled, "request canceled by client"⟩

/-- pb.ScanStreamRequest: one streamed chunk. -/
structure Chunk where
  chunk : List Nat
  filename : String
  isLast : Bool
deriving DecidableEq, Repr

/-- The per-file accumulator of the streaming handlers: buffer, filename
and totalSize locals of ScanStream and ScanMultiple. -/
structure AccState where
  buffer : List Nat
  filename : String
  totalSize : Int
deriving DecidableEq, Repr

def AccState.initial : AccState := ⟨[], "", 0⟩

/-- Result of the receive loop of ScanStream: either the size limit
rejection (carrying the accumulator as it stood, nothing of the offending
chunk appended) or normal exit on EOF or on a last-marked chunk. -/
inductive StreamIngestOutcome where
  | tooLarge (st : AccState)
  | finished (st : AccState)
deriving DecidableEq, Repr

def StreamIngestOutcome.state : StreamIngestOutcome → AccState
  | .tooLarge st => st
  | .finished st => st

def StreamIngestOutcome.isTooLarge : StreamIngestOutcome → Bool
  | .tooLarge _ => true
  | .finished _ => false

/-- The receive loop of ScanStream (grpc_server.go lines 131-170): filename
capture, then the size check before the chunk is written to the buffer. -/
def scanStreamRecvLoop (maxLen : Int) : List Chunk → AccState → StreamIngestOutcome
  | [], st => .finished st
  | c :: rest, st =>
    let st1 : AccState :=
      ⟨st.buffer,
        if st.filename = "" ∧ c.filename ≠ "" then c.filename else st.filename,
        st.totalSize⟩
    if maxLen < st1.totalSize + (c.chunk.length : Int) then
      .tooLarge st1
    else
      let st2 : AccState :=
        ⟨st1.buffer ++ c.chunk, st1.filename, st1.totalSize + (c.chunk.length : Int)⟩
      if c.isLast then .finished st2 else scanStreamRecvLoop maxLen rest st2

/-- Overall outcome of the ScanStream RPC: either the size rejection, or a
daemon scan of the accumulated buffer (the submitted buffer is recorded). -/
inductive ScanStreamOutcome where
  | tooLarge (err : GrpcStatusErr)
  | scanned (submittedBuffer : List Nat) (result : Except GrpcStatusErr ScanResponse)
deriving DecidableEq, Repr

def ScanStreamOutcome.submitted : ScanStreamOutcome → Option (List Nat)
  | .tooLarge _ => none
  | .scanned b _ => some b

/-- ScanStream of grpc_server.go (client-streaming scan): the receive loop,
then an unconditional daemon scan of the accumulated buffer. -/
def GRPCServer.ScanStream (maxLen timeout : Int) (chunks : List Chunk)
    (streamErr : Option String) (ev : ScanEvent) : ScanStreamOutcome :=
  match scanStreamRecvLoop maxLen chunks AccState.initial with
  | .tooLarge _ => .tooLarge ⟨.invalidArgument, tooLargeGrpcMsg maxLen⟩
  | .finished st =>
    .scanned st.buffer
      (match streamErr with
       | some cause => .error ⟨.internal, "scan failed: " ++ cause⟩
       | none =>
         match ev with
         | .completed r elapsed =>
           if r.status = "ERROR" then
             .error ⟨.internal, "scan error: " ++ r.description⟩
           else
             .ok ⟨r.status, r.description, elapsed, st.filename⟩
         | .timerFired => .error ⟨.deadlineExceeded, timeoutGrpcMsg timeout⟩
         | .ctxDone _ => .error ⟨.canceled, "request canceled by client"⟩)

/-- Events resolving one scanData call inside ScanMultiple: the ScanStream
start error and the raced completion event. -/
structure ScanDataEvent where
  streamErr : Option String
  ev : ScanEvent
deriving DecidableEq, Repr

/-- scanData of grpc_server.go: one daemon scan of the accumulated buffer,
returning either a response or a plain formatted error. -/
def GRPCServer.scanData (timeout : Int) (e : ScanDataEvent) (filename : String) :
    Except String ScanResponse :=
  match e.streamErr with
  | some cause => .error ("scan failed: " ++ cause)
  | none =>
    match e.ev with
    | .completed r elapsed =>
      if r.status = "ERROR" then .error ("scan error: " ++ r.description)
      else .ok ⟨r.status, r.description, elapsed, filename⟩
    | .timerFired => .error (timeoutGrpcMsg timeout)
    | .ctxDone _ => .error "request canceled by client"

/-- Outcome of the ScanMultiple RPC: responses sent in order, buffers
submitted to the daemon in order, gauge operations performed (grpc_server.go
contains no scansInProgress operation, so the trace is carried unchanged),
and on the size rejection also the accumulator state at rejection. -/
inductive MultiOutcome where
  | ok (responses : List ScanResponse) (scans : List (List Nat)) (counterOps : List CounterOp)
  | tooLarge (err : GrpcStatusErr) (responses : List ScanResponse)
      (scans : List (List Nat)) (counterOps : List CounterOp) (st : AccState)
deriving DecidableEq, Repr

def MultiOutcome.responses : MultiOutcome → List ScanResponse
  | .ok rs _ _ => rs
  | .tooLarge _ rs _ _ _ => rs

def MultiOutcome.scans : MultiOutcome → List (List Nat)
  | .ok _ s _ => s
  | .tooLarge _ _ s _ _ => s

def MultiOutcome.counterOps : MultiOutcome → List CounterOp
  | .ok _ _ ops => ops
  | .tooLarge _ _ _ ops _ => ops

def MultiOutcome.isOk : MultiOutcome → Bool
  | .ok _ _ _ => true
  | .tooLarge _ _ _ _ _ => false

/-- The receive loop of ScanMultiple (grpc_server.go lines 219-271): size
check first, then filename capture and append; on a last-marked chunk the
buffer is scanned via scanData, a response (an ERROR response when scanData
fails) is sent, and the accumulator is reset for the next file. resps,
scans and ops are accumulators (responses and scans in reverse order); k
numbers the completed files so that events k resolves the scan of file k. -/
def GRPCServer.scanMultipleLoop (maxLen timeout : Int) (events : Nat → ScanDataEvent) :
    List Chunk → AccState → List ScanResponse → List (List Nat) →
    List CounterOp → Nat → MultiOutcome
  | [], _st, resps, scans, ops, _k => .ok resps.reverse scans.reverse ops
  | c :: rest, st, resps, scans, ops, k =>
    if maxLen < st.totalSize + (c.chunk.length : Int) then
      .tooLarge ⟨.invalidArgument, tooLargeGrpcMsg maxLen⟩
        resps.reverse scans.reverse ops st
    else
      let fname :=
        if st.filename = "" ∧ c.filename ≠ "" then c.filename else st.filename
      let buf := st.buffer ++ c.chunk
      if c.isLast then
        let resp :=
          match GRPCServer.scanData timeout (events k) fname with
          | .error msg => ScanResponse.mk "ERROR" msg 0 fname
          | .ok r => r
        GRPCServer.scanMultipleLoop maxLen timeout events rest AccState.initial
          (resp :: resps) (buf :: scans) ops (k + 1)
      else
        GRPCServer.scanMultipleLoop maxLen timeout events rest
          ⟨buf, fname, st.totalSize + (c.chunk.length : Int)⟩ resps scans ops k

/-- ScanMultiple of grpc_server.go (bidirectional streaming scan). -/
def GRPCServer.scanMultiple (maxLen timeout : Int) (events : Nat → ScanDataEvent)
    (chunks : List Chunk) : MultiOutcome :=
  GRPCServer.scanMultipleLoop maxLen timeout events chunks AccState.initial [] [] [] 0

/-- Concatenation of the payloads of a chunk list (used to state that a
rejected ingestion retained only whole chunks, never a partial one). -/
def chunksPayload : List Chunk → List Nat
  | [] => []
  | c :: rest => c.chunk ++ chunksPayload rest

/-- Cumulative payload size of a chunk sequence up to and including the
first last-marked chunk (the bytes the receive loop would try to append). -/
def sizeUntilLast : List Chunk → Int
  | [] => 0
  | c :: rest =>
    (c.chunk.length : Int) + (if c.isLast then 0 else sizeUntilLast rest)

/-- One fragment of a file in a multi-file session: payload and the
filename field carried by that chunk. -/
abbrev Frag := List Nat × String

/-- The chunk sequence transmitting one file: every fragment with the
last-marker clear except the final one. -/
def fileChunks : List Frag → List Chunk
  | [] => []
  | [f] => [⟨f.1, f.2, true⟩]
  | f :: g :: rest => ⟨f.1, f.2, false⟩ :: fileChunks (g :: rest)

/-- Total payload size of a file given as fragments. -/
def fileSizeSum : List Frag → Int
  | [] => 0
  | f :: rest => (f.1.length : Int) + fileSizeSum rest

/-- The filename of the first fragment that carries a non-empty one. -/
def firstNonEmptyName : List Frag → String
  | [] => ""
  | f :: rest => if f.2 ≠ "" then f.2 else firstNonEmptyName rest

/-- The filename state after ingesting the given fragments starting from
filename nm, following the capture rule of the receive loops. -/
def captureName : String → List Frag → String
  | nm, [] => nm
  | nm, f :: rest => captureName (if nm = "" ∧ f.2 ≠ "" then f.2 else nm) rest

/-- Concatenated payload of the fragments of one file. -/
def payloadJoin : List Frag → List Nat
  | [] => []
  | f :: rest => f.1 ++ payloadJoin rest

/-- The chunk sequence of a whole multi-file session. -/
def sessionChunks : List (List Frag) → List Chunk
  | [] => []
  | f :: rest => fileChunks f ++ sessionChunks rest

/-- The response ScanMultiple sends for one completed file whose daemon
call resolves by e and whose captured filename is nm. -/
def expectedResponse (timeout : Int) (e : ScanDataEvent) (nm : String) : ScanResponse :=
  match GRPCServer.scanData timeout e nm with
  | .error msg => ⟨"ERROR", msg, 0, nm⟩
  | .ok r => r

/-- The responses of a multi-file session, file k onward. -/
def expectedResponses (timeout : Int) (events : Nat → ScanDataEvent) :
    Nat → List (List Frag) → List ScanResponse
  | _, [] => []
  | k, f :: rest =>
    expectedResponse timeout (events k) (firstNonEmptyName f) ::
      expectedResponses timeout events (k + 1) rest

/-! Theorems. -/

/-- C1: performScan returns a ScanEngineError with the daemon description
and the measured elapsed time when the completion signal reports ERROR, a
ScanResult with the same elapsed measurement for any other reported status,
and on timeout a ScanTimeoutError carrying the configured timeout while a
background drain of the completion channel is spawned. -/
theorem performScan_race_outcomes (timeout : Int) :
    (∀ (r : ClamdResult) (elapsed : Nat), r.status = "ERROR" →
        performScan none (.completed r elapsed) timeout
          = ⟨.error (.scanEngine r.description elapsed), false⟩)
    ∧ (∀ (r : ClamdResult) (elapsed : Nat), r.status ≠ "ERROR" →
        performScan none (.completed r elapsed) timeout
          = ⟨.ok ⟨r.status, r.description, elapsed⟩, false⟩)
    ∧ performScan none .timerFired timeout
        = ⟨.error (.scanTimeout timeout), true⟩ := by
  refine ⟨?_, ?_, rfl⟩ <;> intro r e h <;> simp [performScan, h]

theorem performScan_race_outcomes_witness :
    performScan none (.completed ⟨"ERROR", "boom"⟩ 3) 5
      = ⟨.error (.scanEngine "boom" 3), false⟩
    ∧ performScan none (.completed ⟨"OK", ""⟩ 2) 5 = ⟨.ok ⟨"OK", "", 2⟩, false⟩
    ∧ performScan none .timerFired 5 = ⟨.error (.scanTimeout 5), true⟩ :=
  ⟨(performScan_race_outcomes 5).1 ⟨"ERROR", "boom"⟩ 3 rfl,
   (performScan_race_outcomes 5).2.1 ⟨"OK", ""⟩ 2 (by decide),
   (performScan_race_outcomes 5).2.2⟩

/-- C3 counterexample: the metrics classifier assigns the category error,
not a distinct category canceled, to a caller-cancellation outcome. -/
theorem recordScanMetrics_canceled_counterexample :
    recordScanMetricsStatus none (some .ctxCanceled) = "error"
    ∧ recordScanMetricsStatus none (some .ctxCanceled) ≠ "canceled" := by
  exact ⟨rfl, by decide⟩

/-- C3 (amended): the outcome classifier is a deterministic total mapping
onto the category set consisting of ok, found, timeout, engine_error and
error: a timeout maps to timeout, an engine failure to engine_error, every
other failure, caller cancellation included, to error, an infected success
to found and any other success to ok. -/
theorem recordScanMetrics_total_classification
    (res : Option ScanResult) (err : Option GoErr) :
    recordScanMetricsStatus res err ∈ ["ok", "found", "timeout", "engine_error", "error"]
    ∧ (∀ t, recordScanMetricsStatus res (some (.scanTimeout t)) = "timeout")
    ∧ (∀ d s, recordScanMetricsStatus res (some (.scanEngine d s)) = "engine_error")
    ∧ (∀ e : GoErr, (∀ t, e ≠ .scanTimeout t) → (∀ d s, e ≠ .scanEngine d s) →
        recordScanMetricsStatus res (some e) = "error")
    ∧ (∀ r, recordScanMetricsStatus (some r) none
        = if r.status = "FOUND" then "found" else "ok")
    ∧ recordScanMetricsStatus none none = "ok" := by
  refine ⟨?_, fun t => rfl, fun d s => rfl, ?_, fun r => rfl, rfl⟩
  · rcases err with _ | e
    · rcases res with _ | r
      · simp [recordScanMetricsStatus]
      · by_cases h : r.status = "FOUND" <;> simp [recordScanMetricsStatus, h]
    · rcases e <;> simp [recordScanMetricsStatus]
  · intro e ht hd
    rcases e with t | ⟨d, s⟩ | _ | _ | _ | _
    · exact absurd rfl (ht t)
    · exact absurd rfl (hd d s)
    all_goals rfl

theorem recordScanMetrics_total_classification_witness :
    recordScanMetricsStatus none (some GoErr.ctxCanceled) = "error" :=
  (recordScanMetrics_total_classification none (some GoErr.ctxCanceled)).2.2.2.1
    GoErr.ctxCanceled (fun _ h => GoErr.noConfusion h) (fun _ _ h => GoErr.noConfusion h)

/-- C4: evaluation at the failing input: respondScanError maps the
context-canceled error to the default 502 branch with the Clamd service
down status, not to a 499 client-closed response as the tests of the
repository (TestRespondScanErrorContextCanceled) and its documentation
require. -/
theorem respondScanError_context_canceled_gives_502 :
    respondScanError GoErr.ctxCanceled
      = ⟨502, some "Clamd service down", "context canceled", none⟩ := rfl

/-- C6: a raw-body scan whose declared content length is missing or
non-positive, or exceeds the ceiling, is answered with a 400 client error,
performScan is never invoked, and the scan-in-flight counter is untouched. -/
theorem handleStreamScan_rejects_invalid_declared_length
    (maxLen timeout : Int) (inp : StreamScanInput)
    (h : inp.contentLength ≤ 0 ∨ maxLen < inp.contentLength) :
    (handleStreamScan maxLen timeout inp).http.code = 400
    ∧ (handleStreamScan maxLen timeout inp).counterOps = []
    ∧ (handleStreamScan maxLen timeout inp).daemonCalled = false
    ∧ (handleStreamScan maxLen timeout inp).metricStatus = none := by
  by_cases h1 : inp.contentLength ≤ 0
  · simp [handleStreamScan, h1]
  · rcases h with h | h
    · exact absurd h h1
    · simp [handleStreamScan, h1, h]

theorem handleStreamScan_rejects_invalid_declared_length_witness :
    (handleStreamScan 100 30 ⟨0, none, .timerFired⟩).http.code = 400
    ∧ (handleStreamScan 100 30 ⟨0, none, .timerFired⟩).counterOps = []
    ∧ (handleStreamScan 100 30 ⟨0, none, .timerFired⟩).daemonCalled = false
    ∧ (handleStreamScan 100 30 ⟨0, none, .timerFired⟩).metricStatus = none :=
  handleStreamScan_rejects_invalid_declared_length 100 30 ⟨0, none, .timerFired⟩
    (Or.inl (by decide))

/-- C9: the gRPC health probe never returns an RPC-level error: a failed
daemon ping yields a successful response with status unhealthy and a
message embedding the ping failure text, a successful ping yields status
healthy with message ok. -/
theorem healthCheck_never_rpc_error (pingErr : Option String) :
    (∃ resp, GRPCServer.HealthCheck pingErr = .ok resp)
    ∧ (∀ e, pingErr = some e →
        GRPCServer.HealthCheck pingErr
          = .ok ⟨"unhealthy", "ClamAV service unavailable: " ++ e⟩)
    ∧ (pingErr = none → GRPCServer.HealthCheck pingErr = .ok ⟨"healthy", "ok"⟩) := by
  rcases pingErr with _ | e <;> simp [GRPCServer.HealthCheck]

theorem healthCheck_never_rpc_error_witness :
    GRPCServer.HealthCheck (some "boom")
      = .ok ⟨"unhealthy", "ClamAV service unavailable: " ++ "boom"⟩
    ∧ GRPCServer.HealthCheck none = .ok ⟨"healthy", "ok"⟩ :=
  ⟨(healthCheck_never_rpc_error (some "boom")).2.1 "boom" rfl,
   (healthCheck_never_rpc_error none).2.2 rfl⟩

/-- C10: only the unary scan rejects an empty payload with an
invalid-argument error; the client-streaming and bidirectional operations
accept a file consisting of a single empty last-marked chunk and submit the
zero-byte buffer to the daemon. -/
theorem empty_payload_policy (maxLen timeout : Int) (hmax : 0 ≤ maxLen) :
    (∀ (fn : String) (streamErr : Option String) (ev : ScanEvent),
        GRPCServer.ScanFile maxLen timeout ⟨[], fn⟩ streamErr ev
          = .error ⟨.invalidArgument, "file data is required"⟩)
    ∧ (∀ (fn : String) (streamErr : Option String) (ev : ScanEvent),
        (GRPCServer.ScanStream maxLen timeout [⟨[], fn, true⟩] streamErr ev).submitted
          = some [])
    ∧ (∀ (fn : String) (events : Nat → ScanDataEvent),
        (GRPCServer.scanMultiple maxLen timeout events [⟨[], fn, true⟩]).scans
          = [[]]) := by
  have hc : ¬ maxLen < (0 : Int) := not_lt.mpr hmax
  refine ⟨fun fn se ev => ?_, fun fn se ev => ?_, fun fn events => ?_⟩
  · simp [GRPCServer.ScanFile]
  · simp [GRPCServer.ScanStream, scanStreamRecvLoop, AccState.initial, hc,
      ScanStreamOutcome.submitted]
  · simp [GRPCServer.scanMultiple, GRPCServer.scanMultipleLoop, AccState.initial, hc,
      MultiOutcome.scans]

theorem empty_payload_policy_witness :
    GRPCServer.ScanFile 200 30 ⟨[], "x"⟩ none .timerFired
      = .error ⟨.invalidArgument, "file data is required"⟩
    ∧ (GRPCServer.ScanStream 200 30 [⟨[], "x", true⟩] none .timerFired).submitted
      = some []
    ∧ (GRPCServer.scanMultiple 200 30 (fun _ => ⟨none, .timerFired⟩)
        [⟨[], "x", true⟩]).scans = [[]] :=
  ⟨(empty_payload_policy 200 30 (by decide)).1 "x" none .timerFired,
   (empty_payload_policy 200 30 (by decide)).2.1 "x" none .timerFired,
   (empty_payload_policy 200 30 (by decide)).2.2 "x" (fun _ => ⟨none, .timerFired⟩)⟩

lemma scanMultipleLoop_counterOps (maxLen timeout : Int) (events : Nat → ScanDataEvent) :
    ∀ (chunks : List Chunk) (st : AccState) (resps : List ScanResponse)
      (scans : List (List Nat)) (ops : List CounterOp) (k : Nat),
      (GRPCServer.scanMultipleLoop maxLen timeout events chunks st resps scans ops k).counterOps
        = ops := by
  intro chunks
  induction chunks with
  | nil =>
    intro st resps scans ops k
    simp [GRPCServer.scanMultipleLoop, MultiOutcome.counterOps]
  | cons c rest ih =>
    intro st resps scans ops k
    by_cases hc : maxLen < st.totalSize + (c.chunk.length : Int)
    · simp [GRPCServer.scanMultipleLoop, hc, MultiOutcome.counterOps]
    · by_cases hl : c.isLast
      · simp only [GRPCServer.scanMultipleLoop, if_neg hc, hl, if_pos rfl]
        exact ih _ _ _ _ _
      · simp only [GRPCServer.scanMultipleLoop, if_neg hc]
        rw [if_neg (by simp [hl])]
        exact ih _ _ _ _ _

/-- C7 counterexample: a binary-transport multi-file session that submits
one buffer to the daemon (one individual scan attempt) performs no
operation at all on the scan-in-flight gauge. -/
theorem grpc_scanMultiple_counter_untouched_cex :
    (GRPCServer.scanMultiple 100 30 (fun _ => ⟨none, .completed ⟨"OK", ""⟩ 1⟩)
        [⟨[1], "a.txt", true⟩]).scans.length = 1
    ∧ (GRPCServer.scanMultiple 100 30 (fun _ => ⟨none, .completed ⟨"OK", ""⟩ 1⟩)
        [⟨[1], "a.txt", true⟩]).counterOps = [] := by
  exact ⟨rfl, rfl⟩

/-- C7 (amended): the textual transport increments the scan-in-flight
counter before each individual scan attempt and decrements it after, and a
request rejected before the attempt leaves the counter untouched; the
binary transport never touches the counter, so in particular it is not
held across a multi-file session. -/
theorem scansInProgress_counter_usage (maxLen timeout : Int) :
    (∀ inp : RestScanInput, inp.formFileErr = false → inp.headerSize ≤ maxLen →
        (handleScan maxLen timeout inp).counterOps = [.inc, .dec]
        ∧ (handleScan maxLen timeout inp).daemonCalled = true)
    ∧ (∀ inp : RestScanInput, inp.formFileErr = true ∨ maxLen < inp.headerSize →
        (handleScan maxLen timeout inp).counterOps = [])
    ∧ (∀ inp : StreamScanInput, 0 < inp.contentLength → inp.contentLength ≤ maxLen →
        (handleStreamScan maxLen timeout inp).counterOps = [.inc, .dec]
        ∧ (handleStreamScan maxLen timeout inp).daemonCalled = true)
    ∧ (∀ (events : Nat → ScanDataEvent) (chunks : List Chunk),
        (GRPCServer.scanMultiple maxLen timeout events chunks).counterOps = []) := by
  refine ⟨?_, ?_, ?_, ?_⟩
  · intro inp h1 h2
    have h2x : ¬ maxLen < inp.headerSize := not_lt.mpr h2
    cases hres : (performScan inp.streamErr inp.ev timeout).result with
    | error e => constructor <;> simp [handleScan, h1, h2x, hres]
    | ok r => constructor <;> simp [handleScan, h1, h2x, hres]
  · intro inp h
    rcases h with h | h
    · simp [handleScan, h]
    · by_cases h1 : inp.formFileErr <;> simp [handleScan, h1, h]
  · intro inp h1 h2
    have h1x : ¬ inp.contentLength ≤ 0 := not_le.mpr h1
    have h2x : ¬ maxLen < inp.contentLength := not_lt.mpr h2
    cases hres : (performScan inp.streamErr inp.ev timeout).result with
    | error e => constructor <;> simp [handleStreamScan, h1x, h2x, hres]
    | ok r => constructor <;> simp [handleStreamScan, h1x, h2x, hres]
  · intro events chunks
    exact scanMultipleLoop_counterOps maxLen timeout events chunks _ _ _ _ _

theorem scansInProgress_counter_usage_witness :
    (handleScan 100 30 ⟨false, 5, "f", none, .timerFired⟩).counterOps = [.inc, .dec]
    ∧ (handleScan 100 30 ⟨false, 5, "f", none, .timerFired⟩).daemonCalled = true :=
  (scansInProgress_counter_usage 100 30).1 ⟨false, 5, "f", none, .timerFired⟩
    rfl (by decide)

/-- C8: in a bidirectional session a chunk whose payload would push the
current file over the ceiling terminates the whole session with an
invalid-argument status: no per-file response is added, nothing of the
chunk is appended, and the remaining chunks are never consumed; whereas a
completed file whose daemon call fails is answered with an ERROR response
for that file and the session continues with the accumulator reset. -/
theorem scanMultiple_overflow_terminates_session (maxLen timeout : Int)
    (events : Nat → ScanDataEvent) :
    (∀ (c : Chunk) (rest : List Chunk) (st : AccState) (resps : List ScanResponse)
        (scans : List (List Nat)) (ops : List CounterOp) (k : Nat),
        maxLen < st.totalSize + (c.chunk.length : Int) →
        GRPCServer.scanMultipleLoop maxLen timeout events (c :: rest) st resps scans ops k
          = .tooLarge ⟨.invalidArgument, tooLargeGrpcMsg maxLen⟩
              resps.reverse scans.reverse ops st)
    ∧ (∀ (c : Chunk) (rest : List Chunk) (st : AccState) (resps : List ScanResponse)
        (scans : List (List Nat)) (ops : List CounterOp) (k : Nat) (emsg : String),
        st.totalSize + (c.chunk.length : Int) ≤ maxLen →
        c.isLast = true →
        GRPCServer.scanData timeout (events k)
            (if st.filename = "" ∧ c.filename ≠ "" then c.filename else st.filename)
          = .error emsg →
        GRPCServer.scanMultipleLoop maxLen timeout events (c :: rest) st resps scans ops k
          = GRPCServer.scanMultipleLoop maxLen timeout events rest AccState.initial
              (⟨"ERROR", emsg, 0,
                  if st.filename = "" ∧ c.filename ≠ "" then c.filename else st.filename⟩
                :: resps)
              ((st.buffer ++ c.chunk) :: scans) ops (k + 1)) := by
  constructor
  · intro c rest st resps scans ops k h
    simp [GRPCServer.scanMultipleLoop, h]
  · intro c rest st resps scans ops k emsg h hl hsd
    simp [GRPCServer.scanMultipleLoop, not_lt.mpr h, hl, hsd]

theorem scanMultiple_overflow_terminates_session_witness :
    GRPCServer.scanMultipleLoop 2 30 (fun _ => ⟨none, .completed ⟨"OK", ""⟩ 1⟩)
        [⟨[1, 2, 3], "f", true⟩, ⟨[7], "g", true⟩] AccState.initial [] [] [] 0
      = .tooLarge ⟨.invalidArgument, tooLargeGrpcMsg 2⟩ [] [] [] AccState.initial
    ∧ GRPCServer.scanMultipleLoop 10 30 (fun _ => ⟨none, .completed ⟨"ERROR", "boom"⟩ 2⟩)
        [⟨[1], "f", true⟩, ⟨[2], "g", true⟩] AccState.initial [] [] [] 0
      = GRPCServer.scanMultipleLoop 10 30 (fun _ => ⟨none, .completed ⟨"ERROR", "boom"⟩ 2⟩)
          [⟨[2], "g", true⟩] AccState.initial
          [⟨"ERROR", "scan error: " ++ "boom", 0, "f"⟩] [[1]] [] 1 :=
  ⟨(scanMultiple_overflow_terminates_session 2 30 (fun _ => ⟨none, .completed ⟨"OK", ""⟩ 1⟩)).1
      ⟨[1, 2, 3], "f", true⟩ [⟨[7], "g", true⟩] AccState.initial [] [] [] 0 (by decide),
   (scanMultiple_overflow_terminates_session 10 30
        (fun _ => ⟨none, .completed ⟨"ERROR", "boom"⟩ 2⟩)).2
      ⟨[1], "f", true⟩ [⟨[2], "g", true⟩] AccState.initial [] [] [] 0
      ("scan error: " ++ "boom") (by decide) rfl (by decide)⟩

lemma scanStreamRecvLoop_inv (maxLen : Int) :
    ∀ (chunks : List Chunk) (st : AccState), st.totalSize ≤ maxLen →
      (scanStreamRecvLoop maxLen chunks st).state.totalSize ≤ maxLen
      ∧ ∃ k, (scanStreamRecvLoop maxLen chunks st).state.buffer
          = st.buffer ++ chunksPayload (chunks.take k) := by
  intro chunks
  induction chunks with
  | nil =>
    intro st h
    exact ⟨h, 0, by simp [scanStreamRecvLoop, StreamIngestOutcome.state, chunksPayload]⟩
  | cons c rest ih =>
    intro st h
    by_cases hc : maxLen < st.totalSize + (c.chunk.length : Int)
    · refine ⟨?_, 0, ?_⟩ <;>
        simp [scanStreamRecvLoop, hc, StreamIngestOutcome.state, chunksPayload, h]
    · by_cases hl : c.isLast
      · refine ⟨?_, 1, ?_⟩ <;>
          simp [scanStreamRecvLoop, hc, hl, StreamIngestOutcome.state, chunksPayload]
        omega
      · have hstep := ih ⟨st.buffer ++ c.chunk,
          if st.filename = "" ∧ c.filename ≠ "" then c.filename else st.filename,
          st.totalSize + (c.chunk.length : Int)⟩ (by simpa using not_lt.mp hc)
        obtain ⟨ha, k, hb⟩ := hstep
        refine ⟨?_, k + 1, ?_⟩ <;>
          simp only [scanStreamRecvLoop, if_neg hc] <;>
          rw [if_neg (by simp [hl])]
        · exact ha
        · simpa [chunksPayload, List.take_succ_cons] using hb

lemma scanStreamRecvLoop_overflow (maxLen : Int) :
    ∀ (chunks : List Chunk) (st : AccState), st.totalSize ≤ maxLen →
      maxLen < st.totalSize + sizeUntilLast chunks →
      (scanStreamRecvLoop maxLen chunks st).isTooLarge = true := by
  intro chunks
  induction chunks with
  | nil =>
    intro st h hover
    simp [sizeUntilLast] at hover
    omega
  | cons c rest ih =>
    intro st h hover
    by_cases hc : maxLen < st.totalSize + (c.chunk.length : Int)
    · simp [scanStreamRecvLoop, hc, StreamIngestOutcome.isTooLarge]
    · by_cases hl : c.isLast
      · simp [sizeUntilLast, hl] at hover
        omega
      · have hover2 : maxLen < st.totalSize + (c.chunk.length : Int) + sizeUntilLast rest := by
          simp [sizeUntilLast, hl] at hover
          omega
        simp only [scanStreamRecvLoop, if_neg hc]
        rw [if_neg (by simp [hl])]
        exact ih _ (by simpa using not_lt.mp hc) (by simpa using hover2)

lemma scanMultipleLoop_scans_bounded (maxLen timeout : Int) (events : Nat → ScanDataEvent) :
    ∀ (chunks : List Chunk) (st : AccState) (resps : List ScanResponse)
      (scans : List (List Nat)) (ops : List CounterOp) (k : Nat),
      (st.buffer.length : Int) = st.totalSize →
      (∀ b ∈ scans, (b.length : Int) ≤ maxLen) →
      ∀ b ∈ (GRPCServer.scanMultipleLoop maxLen timeout events chunks st resps scans ops k).scans,
        (b.length : Int) ≤ maxLen := by
  intro chunks
  induction chunks with
  | nil =>
    intro st resps scans ops k _ hscans b hb
    simp [GRPCServer.scanMultipleLoop, MultiOutcome.scans] at hb
    exact hscans b hb
  | cons c rest ih =>
    intro st resps scans ops k hinv hscans b hb
    by_cases hc : maxLen < st.totalSize + (c.chunk.length : Int)
    · simp [GRPCServer.scanMultipleLoop, hc, MultiOutcome.scans] at hb
      exact hscans b hb
    · by_cases hl : c.isLast
      · simp only [GRPCServer.scanMultipleLoop, if_neg hc, hl, if_pos rfl] at hb
        refine ih _ _ _ _ _ (by simp [AccState.initial]) ?_ b hb
        intro b2 hb2
        rcases List.mem_cons.mp hb2 with hb2 | hb2
        · subst hb2
          simp only [List.length_append]
          push_cast
          omega
        · exact hscans b2 hb2
      · simp only [GRPCServer.scanMultipleLoop, if_neg hc] at hb
        rw [if_neg (by simp [hl])] at hb
        refine ih _ _ _ _ _ ?_ hscans b hb
        simp only [List.length_append]
        push_cast
        omega

/-- C2: the accumulated byte counter of a streaming ingestion never
exceeds the ceiling: the client-streaming receive loop always stops with a
counter within the ceiling and a buffer made of whole chunks only (no
prefix of a rejected chunk), any chunk sequence whose cumulative size up
to the last-marker exceeds the ceiling is rejected as too large, and every
buffer the bidirectional loop submits to the daemon is within the ceiling. -/
theorem ingestion_size_ceiling (maxLen : Int) (chunks : List Chunk) (hmax : 0 ≤ maxLen) :
    (scanStreamRecvLoop maxLen chunks AccState.initial).state.totalSize ≤ maxLen
    ∧ (∃ k, (scanStreamRecvLoop maxLen chunks AccState.initial).state.buffer
        = chunksPayload (chunks.take k))
    ∧ (maxLen < sizeUntilLast chunks →
        (scanStreamRecvLoop maxLen chunks AccState.initial).isTooLarge = true)
    ∧ (∀ (timeout : Int) (events : Nat → ScanDataEvent) b,
        b ∈ (GRPCServer.scanMultiple maxLen timeout events chunks).scans →
        (b.length : Int) ≤ maxLen) := by
  have h0 : (AccState.initial).totalSize ≤ maxLen := by simpa [AccState.initial] using hmax
  obtain ⟨ha, k, hb⟩ := scanStreamRecvLoop_inv maxLen chunks AccState.initial h0
  refine ⟨ha, ⟨k, by simpa [AccState.initial] using hb⟩, ?_, ?_⟩
  · intro hover
    exact scanStreamRecvLoop_overflow maxLen chunks AccState.initial h0
      (by simpa [AccState.initial] using hover)
  · intro timeout events b hbmem
    exact scanMultipleLoop_scans_bounded maxLen timeout events chunks AccState.initial
      [] [] [] 0 (by simp [AccState.initial]) (by simp) b hbmem

theorem ingestion_size_ceiling_witness :
    (scanStreamRecvLoop 4 [⟨[1, 2, 3], "x", false⟩, ⟨[9, 9], "f", true⟩]
        AccState.initial).state.totalSize ≤ 4
    ∧ (scanStreamRecvLoop 4 [⟨[1, 2, 3], "x", false⟩, ⟨[9, 9], "f", true⟩]
        AccState.initial).isTooLarge = true :=
  ⟨(ingestion_size_ceiling 4 [⟨[1, 2, 3], "x", false⟩, ⟨[9, 9], "f", true⟩] (by decide)).1,
   (ingestion_size_ceiling 4 [⟨[1, 2, 3], "x", false⟩, ⟨[9, 9], "f", true⟩]
      (by decide)).2.2.1 (by decide)⟩

lemma fileSizeSum_nonneg : ∀ frags : List Frag, 0 ≤ fileSizeSum frags := by
  intro frags
  induction frags with
  | nil => simp [fileSizeSum]
  | cons f r ih => simp only [fileSizeSum]; omega

lemma captureName_eq (frags : List Frag) :
    ∀ nm, captureName nm frags = if nm = "" then firstNonEmptyName frags else nm := by
  induction frags with
  | nil =>
    intro nm
    by_cases h : nm = "" <;> simp [captureName, firstNonEmptyName, h]
  | cons f r ih =>
    intro nm
    simp only [captureName]
    rw [ih]
    by_cases h : nm = ""
    · by_cases h2 : f.2 = ""
      · simp [h, h2, firstNonEmptyName]
      · simp [h, h2, firstNonEmptyName]
    · simp [h]

lemma scanMultipleLoop_one_file (maxLen timeout : Int) (events : Nat → ScanDataEvent) :
    ∀ (frags : List Frag) (st : AccState) (rest : List Chunk)
      (resps : List ScanResponse) (scans : List (List Nat))
      (ops : List CounterOp) (k : Nat),
      frags ≠ [] →
      st.totalSize + fileSizeSum frags ≤ maxLen →
      GRPCServer.scanMultipleLoop maxLen timeout events
          (fileChunks frags ++ rest) st resps scans ops k
        = GRPCServer.scanMultipleLoop maxLen timeout events rest AccState.initial
            (expectedResponse timeout (events k) (captureName st.filename frags) :: resps)
            ((st.buffer ++ payloadJoin frags) :: scans) ops (k + 1) := by
  intro frags
  induction frags with
  | nil =>
    intro st rest resps scans ops k hne
    exact absurd rfl hne
  | cons f tail ih =>
    intro st rest resps scans ops k _ hsize
    cases tail with
    | nil =>
      have hc : ¬ maxLen < st.totalSize + (f.1.length : Int) := by
        simp only [fileSizeSum] at hsize
        omega
      simp only [fileChunks, List.cons_append, List.nil_append,
        GRPCServer.scanMultipleLoop, if_neg hc]
      simp [expectedResponse, captureName, payloadJoin]
    | cons g r =>
      have h0 : 0 ≤ fileSizeSum r := fileSizeSum_nonneg r
      have hc : ¬ maxLen < st.totalSize + (f.1.length : Int) := by
        simp only [fileSizeSum] at hsize
        omega
      simp only [fileChunks, List.cons_append, GRPCServer.scanMultipleLoop, if_neg hc]
      rw [if_neg (by simp)]
      simp only [List.append_eq]
      rw [ih ⟨st.buffer ++ f.1,
            if st.filename = "" ∧ f.2 ≠ "" then f.2 else st.filename,
            st.totalSize + (f.1.length : Int)⟩ rest resps scans ops k (by simp)
          (by simp only [fileSizeSum] at hsize ⊢; omega)]
      simp [captureName, payloadJoin, List.append_assoc]

lemma scanMultipleLoop_session (maxLen timeout : Int) (events : Nat → ScanDataEvent) :
    ∀ (files : List (List Frag)),
      (∀ f ∈ files, f ≠ []) →
      (∀ f ∈ files, fileSizeSum f ≤ maxLen) →
      ∀ (resps : List ScanResponse) (scans : List (List Nat))
        (ops : List CounterOp) (k : Nat),
        GRPCServer.scanMultipleLoop maxLen timeout events
            (sessionChunks files) AccState.initial resps scans ops k
          = .ok (resps.reverse ++ expectedResponses timeout events k files)
              (scans.reverse ++ files.map payloadJoin) ops := by
  intro files
  induction files with
  | nil =>
    intro _ _ resps scans ops k
    simp [sessionChunks, GRPCServer.scanMultipleLoop, expectedResponses]
  | cons f fs ih =>
    intro hne hsz resps scans ops k
    simp only [sessionChunks]
    rw [scanMultipleLoop_one_file maxLen timeout events f AccState.initial
        (sessionChunks fs) resps scans ops k (hne f (by simp))
        (by have := hsz f (by simp); simp only [AccState.initial]; omega)]
    rw [ih (fun f2 h2 => hne f2 (by simp [h2])) (fun f2 h2 => hsz f2 (by simp [h2]))]
    simp [captureName_eq, AccState.initial, expectedResponses, List.reverse_cons,
      List.append_assoc]

lemma expectedResponse_filename (timeout : Int) (e : ScanDataEvent) (nm : String) :
    (expectedResponse timeout e nm).filename = nm := by
  rcases e with ⟨se, ev⟩
  rcases se with _ | cause
  · rcases ev with ⟨r, el⟩ | _ | b
    · by_cases h : r.status = "ERROR" <;>
        simp [expectedResponse, GRPCServer.scanData, h]
    · simp [expectedResponse, GRPCServer.scanData]
    · simp [expectedResponse, GRPCServer.scanData]
  · simp [expectedResponse, GRPCServer.scanData]

lemma expectedResponses_length (timeout : Int) (events : Nat → ScanDataEvent) :
    ∀ (k : Nat) (files : List (List Frag)),
      (expectedResponses timeout events k files).length = files.length := by
  intro k files
  induction files generalizing k with
  | nil => simp [expectedResponses]
  | cons f fs ih => simp [expectedResponses, ih]

lemma expectedResponses_filenames (timeout : Int) (events : Nat → ScanDataEvent) :
    ∀ (k : Nat) (files : List (List Frag)),
      (expectedResponses timeout events k files).map ScanResponse.filename
        = files.map firstNonEmptyName := by
  intro k files
  induction files generalizing k with
  | nil => simp [expectedResponses]
  | cons f fs ih => simp [expectedResponses, ih, expectedResponse_filename]

/-- C5: a bidirectional session transmitting N files, each within the
ceiling and terminated by a last-marked chunk, yields exactly N responses
in receipt order, each carrying the filename of the first fragment of its
file that supplied a non-empty one; a per-file daemon failure is reported
as that file's ERROR response and the session continues with the
accumulator reset, so later files are still ingested and scanned. -/
theorem scanMultiple_session_responses (maxLen timeout : Int)
    (events : Nat → ScanDataEvent) (files : List (List Frag))
    (hne : ∀ f ∈ files, f ≠ [])
    (hsz : ∀ f ∈ files, fileSizeSum f ≤ maxLen) :
    GRPCServer.scanMultiple maxLen timeout events (sessionChunks files)
      = .ok (expectedResponses timeout events 0 files) (files.map payloadJoin) []
    ∧ (expectedResponses timeout events 0 files).length = files.length
    ∧ (expectedResponses timeout events 0 files).map ScanResponse.filename
        = files.map firstNonEmptyName := by
  refine ⟨?_, expectedResponses_length timeout events 0 files,
    expectedResponses_filenames timeout events 0 files⟩
  unfold GRPCServer.scanMultiple
  rw [scanMultipleLoop_session maxLen timeout events files hne hsz [] [] [] 0]
  simp

theorem scanMultiple_session_responses_witness :
    (expectedResponses 30 (fun _ => ⟨none, .completed ⟨"OK", ""⟩ 1⟩) 0
        [[([1, 2], "a.txt")], [([3], ""), ([4], "b.txt")]]).length = 2 :=
  (scanMultiple_session_responses 10 30 (fun _ => ⟨none, .completed ⟨"OK", ""⟩ 1⟩)
    [[([1, 2], "a.txt")], [([3], ""), ([4], "b.txt")]] (by decide) (by decide)).2.1

end ClamAV
